import Mathlib

/-!
Shallow embedding of the remote-volume service: the WebSocket message
handler, broadcast fan-out and poll loop of `main.js`, and the
platform-dispatching volume backend of `volumeController.js`.
-/

namespace RemoteVolume

/-- A JavaScript number as it occurs in this program's volume paths:
an integer or `NaN` (the only non-integer value these code paths can
produce, via `undefined` arithmetic or a failed `parseInt`). -/
inductive JsNum where
  | int : Int → JsNum
  | nan : JsNum
deriving DecidableEq, Repr

/-- `Math.min` restricted to the values occurring here: `NaN` on either
side yields `NaN`. -/
def jsMin : JsNum → JsNum → JsNum
  | JsNum.int a, JsNum.int b => JsNum.int (min a b)
  | _, _ => JsNum.nan

/-- `Math.max`: `NaN` on either side yields `NaN`. -/
def jsMax : JsNum → JsNum → JsNum
  | JsNum.int a, JsNum.int b => JsNum.int (max a b)
  | _, _ => JsNum.nan

/-- JavaScript `+` on numbers: `NaN` propagates. -/
def jsAdd : JsNum → JsNum → JsNum
  | JsNum.int a, JsNum.int b => JsNum.int (a + b)
  | _, _ => JsNum.nan

/-- JavaScript `-` on numbers: `NaN` propagates. -/
def jsSub : JsNum → JsNum → JsNum
  | JsNum.int a, JsNum.int b => JsNum.int (a - b)
  | _, _ => JsNum.nan

/-- JavaScript strict equality `===` on numbers: `NaN === NaN` is false. -/
def jsEq : JsNum → JsNum → Bool
  | JsNum.int a, JsNum.int b => a == b
  | _, _ => false

/-- Template-literal rendering of a number, as in `` `... ${volume}%` ``. -/
def jsNumToString : JsNum → String
  | JsNum.int n => toString n
  | JsNum.nan => "NaN"

/-- The value of `os.platform()`. -/
inductive Platform where
  | linux : Platform
  | darwin : Platform
  | win32 : Platform
  | other : String → Platform
deriving DecidableEq, Repr

def Platform.name : Platform → String
  | Platform.linux => "linux"
  | Platform.darwin => "darwin"
  | Platform.win32 => "win32"
  | Platform.other s => s

/-- Whether the platform has a case in `volumeController.js`'s switches. -/
def Platform.supported : Platform → Bool
  | Platform.other _ => false
  | _ => true

/-- A message the server sends over a socket: either the state document
`{volume, muted, device}` or an error document `{error: string}`. -/
inductive OutMsg where
  | state : JsNum → Bool → String → OutMsg
  | errMsg : String → OutMsg
deriving DecidableEq, Repr

/-- Observable side effects of backend code: a subprocess run
(command text plus whether it failed) and a `console.error` line
(identified by its first, constant argument). -/
inductive Ev where
  | exec : String → Bool → Ev
  | log : String → Ev
deriving DecidableEq, Repr

/-- The family of per-platform primitives (`getVolumeLinux`,
`setVolumeLinux`, ... resp. the Mac/Windows families) that the
`module.exports` dispatch of `volumeController.js` delegates to.  Each
primitive catches its own subprocess errors, so none of them can throw:
they return a value, the new external-system state and the emitted
exec/log events. -/
structure Prim (σ : Type) where
  getVol : σ → JsNum × σ × List Ev
  setVol : JsNum → σ → σ × List Ev
  getMut : σ → Bool × σ × List Ev
  setMut : Bool → σ → σ × List Ev
  getDev : σ → String × σ × List Ev

/-- A model audio device used to instantiate `Prim`: a well-behaved
backend where a get returns the last set value.  `appliedVols` and
`appliedMutes` record the arguments of every set call, `getReads`
counts the query calls. -/
structure Dev where
  vol : JsNum
  muted : Bool
  device : String
  appliedVols : List JsNum
  appliedMutes : List Bool
  getReads : Nat
deriving DecidableEq, Repr

def devPrim : Prim Dev where
  getVol d := (d.vol, { d with getReads := d.getReads + 1 }, [])
  setVol v d := ({ d with vol := v, appliedVols := d.appliedVols ++ [v] }, [])
  getMut d := (d.muted, { d with getReads := d.getReads + 1 }, [])
  setMut m d := ({ d with muted := m, appliedMutes := d.appliedMutes ++ [m] }, [])
  getDev d := (d.device, { d with getReads := d.getReads + 1 }, [])

namespace VolumeController

/-- `module.exports.getVolume`: dispatch on the platform; an unsupported
platform throws `Unsupported platform: ...`. -/
def getVolume (pl : Platform) (P : Prim σ) (s : σ) :
    Except String JsNum × σ × List Ev :=
  if pl.supported then
    let (v, s1, evs) := P.getVol s
    (Except.ok v, s1, evs)
  else
    (Except.error ("Unsupported platform: " ++ pl.name), s, [])

/-- `module.exports.setVolume`: clamps the argument with
`Math.max(0, Math.min(100, volume))`, then dispatches. -/
def setVolume (pl : Platform) (P : Prim σ) (volume : JsNum) (s : σ) :
    Except String Unit × σ × List Ev :=
  let vol := jsMax (JsNum.int 0) (jsMin (JsNum.int 100) volume)
  if pl.supported then
    let (s1, evs) := P.setVol vol s
    (Except.ok (), s1, evs)
  else
    (Except.error ("Unsupported platform: " ++ pl.name), s, [])

/-- `module.exports.getMuted`. -/
def getMuted (pl : Platform) (P : Prim σ) (s : σ) :
    Except String Bool × σ × List Ev :=
  if pl.supported then
    let (m, s1, evs) := P.getMut s
    (Except.ok m, s1, evs)
  else
    (Except.error ("Unsupported platform: " ++ pl.name), s, [])

/-- `module.exports.setMuted`. -/
def setMuted (pl : Platform) (P : Prim σ) (muted : Bool) (s : σ) :
    Except String Unit × σ × List Ev :=
  if pl.supported then
    let (s1, evs) := P.setMut muted s
    (Except.ok (), s1, evs)
  else
    (Except.error ("Unsupported platform: " ++ pl.name), s, [])

/-- `module.exports.getOutputDevice`. -/
def getOutputDevice (pl : Platform) (P : Prim σ) (s : σ) :
    Except String String × σ × List Ev :=
  if pl.supported then
    let (d, s1, evs) := P.getDev s
    (Except.ok d, s1, evs)
  else
    (Except.error ("Unsupported platform: " ++ pl.name), s, [])

end VolumeController

/-- One entry of `wss.clients`.  `readyState` uses the `ws` constants
(OPEN = 1); `sendThrows` says whether a `send` on this socket raises a
synchronous exception. -/
structure Client where
  cid : Nat
  readyState : Nat
  sendThrows : Bool
deriving DecidableEq, Repr

/-- `WebSocket.OPEN`. -/
def WSOPEN : Nat := 1

/-- The server-side world threaded through the handlers of `main.js`:
the external audio-system state, the live client set, all messages
delivered so far as `(client id, payload)` pairs, the exec/log trace,
the number of `broadcastState` invocations, and whether an exception
escaped a handler (which would crash the process). -/
structure World (σ : Type) where
  os : σ
  clients : List Client
  outbox : List (Nat × OutMsg)
  events : List Ev
  broadcastsStarted : Nat
  crashed : Bool

/-- The `wss.clients.forEach` body of `broadcastState`: send to every
client whose `readyState` is OPEN.  A synchronous exception from one
`send` aborts the iteration (the `forEach` has no per-client guard);
the pair returned is (messages delivered, whether the loop aborted). -/
def sendLoop (st : OutMsg) : List Client → List (Nat × OutMsg) × Bool
  | [] => ([], false)
  | c :: rest =>
    if c.readyState == WSOPEN then
      if c.sendThrows then ([], true)
      else ((c.cid, st) :: (sendLoop st rest).1, (sendLoop st rest).2)
    else sendLoop st rest

/-- Characterization of the fan-out's reach: the open clients that
precede the first open client whose `send` throws.  (With no per-client
exception guard in the `forEach`, delivery stops there.) -/
def openBeforeFailure : List Client → List Client
  | [] => []
  | c :: rest =>
    if c.readyState == WSOPEN then
      if c.sendThrows then [] else c :: openBeforeFailure rest
    else openBeforeFailure rest

/-- `broadcastState` of `main.js`: queries volume, mute and device, then
fans the state document out to every open client; any exception inside
the `try` (a query throw or a send throw mid-`forEach`) is caught and
logged as `Error broadcasting state:`. -/
def broadcastState (pl : Platform) (P : Prim σ) (w : World σ) : World σ :=
  let w0 := { w with broadcastsStarted := w.broadcastsStarted + 1 }
  match VolumeController.getVolume pl P w0.os with
  | (Except.error _, s1, e1) =>
    { w0 with os := s1, events := w0.events ++ e1 ++ [Ev.log "Error broadcasting state:"] }
  | (Except.ok volume, s1, e1) =>
    match VolumeController.getMuted pl P s1 with
    | (Except.error _, s2, e2) =>
      { w0 with os := s2, events := w0.events ++ e1 ++ e2 ++ [Ev.log "Error broadcasting state:"] }
    | (Except.ok muted, s2, e2) =>
      match VolumeController.getOutputDevice pl P s2 with
      | (Except.error _, s3, e3) =>
        { w0 with os := s3,
                  events := w0.events ++ e1 ++ e2 ++ e3 ++ [Ev.log "Error broadcasting state:"] }
      | (Except.ok device, s3, e3) =>
        let st := OutMsg.state volume muted device
        let delivered := (sendLoop st w0.clients).1
        let aborted := (sendLoop st w0.clients).2
        { w0 with os := s3,
                  events := w0.events ++ e1 ++ e2 ++ e3
                    ++ (if aborted then [Ev.log "Error broadcasting state:"] else []),
                  outbox := w0.outbox ++ delivered }

/-- `sendState` of `main.js`: queries the state and sends it to one
client; every exception inside (including one from `ws.send`) is caught
and logged as `Error getting state:`. -/
def sendState (pl : Platform) (P : Prim σ) (target : Client) (w : World σ) : World σ :=
  match VolumeController.getVolume pl P w.os with
  | (Except.error _, s1, e1) =>
    { w with os := s1, events := w.events ++ e1 ++ [Ev.log "Error getting state:"] }
  | (Except.ok volume, s1, e1) =>
    match VolumeController.getMuted pl P s1 with
    | (Except.error _, s2, e2) =>
      { w with os := s2, events := w.events ++ e1 ++ e2 ++ [Ev.log "Error getting state:"] }
    | (Except.ok muted, s2, e2) =>
      match VolumeController.getOutputDevice pl P s2 with
      | (Except.error _, s3, e3) =>
        { w with os := s3, events := w.events ++ e1 ++ e2 ++ e3 ++ [Ev.log "Error getting state:"] }
      | (Except.ok device, s3, e3) =>
        { w with os := s3,
                 events := w.events ++ e1 ++ e2 ++ e3
                   ++ (if target.sendThrows then [Ev.log "Error getting state:"] else []),
                 outbox := w.outbox
                   ++ (if target.sendThrows then []
                       else [(target.cid, OutMsg.state volume muted device)]) }

/-- A parsed client message `{action, value}`.  A missing or
non-numeric `value` is modelled as `JsNum.nan`, matching the `NaN` that
JavaScript arithmetic on `undefined` (or `Math.min`/`Math.max` on a
non-coercible value) produces. -/
structure Msg where
  action : String
  value : JsNum
deriving DecidableEq, Repr

/-- `handleMessage` of `main.js`.  The switch is modelled as the
equivalent first-match equality chain.  The `Except.error` result is a
JavaScript exception propagating out of the (async) function, carrying
the error message. -/
def handleMessage (pl : Platform) (P : Prim σ) (m : Msg) (sender : Client)
    (w : World σ) : Except String Unit × World σ :=
  if m.action = "setVolume" then
    match VolumeController.setVolume pl P m.value w.os with
    | (Except.error e, s1, evs) =>
      (Except.error e, { w with os := s1, events := w.events ++ evs })
    | (Except.ok _, s1, evs) =>
      (Except.ok (), broadcastState pl P { w with os := s1, events := w.events ++ evs })
  else if m.action = "getState" then
    (Except.ok (), sendState pl P sender w)
  else if m.action = "increaseVolume" then
    match VolumeController.getVolume pl P w.os with
    | (Except.error e, s1, evs) =>
      (Except.error e, { w with os := s1, events := w.events ++ evs })
    | (Except.ok currentVol, s1, evs) =>
      match VolumeController.setVolume pl P (jsMin (JsNum.int 100) (jsAdd currentVol m.value)) s1 with
      | (Except.error e, s2, evs2) =>
        (Except.error e, { w with os := s2, events := w.events ++ evs ++ evs2 })
      | (Except.ok _, s2, evs2) =>
        (Except.ok (), broadcastState pl P { w with os := s2, events := w.events ++ evs ++ evs2 })
  else if m.action = "decreaseVolume" then
    match VolumeController.getVolume pl P w.os with
    | (Except.error e, s1, evs) =>
      (Except.error e, { w with os := s1, events := w.events ++ evs })
    | (Except.ok vol, s1, evs) =>
      match VolumeController.setVolume pl P (jsMax (JsNum.int 0) (jsSub vol m.value)) s1 with
      | (Except.error e, s2, evs2) =>
        (Except.error e, { w with os := s2, events := w.events ++ evs ++ evs2 })
      | (Except.ok _, s2, evs2) =>
        (Except.ok (), broadcastState pl P { w with os := s2, events := w.events ++ evs ++ evs2 })
  else if m.action = "mute" then
    match VolumeController.setMuted pl P true w.os with
    | (Except.error e, s1, evs) =>
      (Except.error e, { w with os := s1, events := w.events ++ evs })
    | (Except.ok _, s1, evs) =>
      (Except.ok (), broadcastState pl P { w with os := s1, events := w.events ++ evs })
  else if m.action = "unmute" then
    match VolumeController.setMuted pl P false w.os with
    | (Except.error e, s1, evs) =>
      (Except.error e, { w with os := s1, events := w.events ++ evs })
    | (Except.ok _, s1, evs) =>
      (Except.ok (), broadcastState pl P { w with os := s1, events := w.events ++ evs })
  else if m.action = "toggleMute" then
    match VolumeController.getMuted pl P w.os with
    | (Except.error e, s1, evs) =>
      (Except.error e, { w with os := s1, events := w.events ++ evs })
    | (Except.ok isMuted, s1, evs) =>
      match VolumeController.setMuted pl P (!isMuted) s1 with
      | (Except.error e, s2, evs2) =>
        (Except.error e, { w with os := s2, events := w.events ++ evs ++ evs2 })
      | (Except.ok _, s2, evs2) =>
        (Except.ok (), broadcastState pl P { w with os := s2, events := w.events ++ evs ++ evs2 })
  else if m.action = "isMuted" then
    (Except.ok (), sendState pl P sender w)
  else
    if sender.sendThrows then (Except.error "send failed", w)
    else (Except.ok (), { w with outbox := w.outbox ++ [(sender.cid, OutMsg.errMsg "Unknown action")] })

/-- The raw text of one inbound frame: either it `JSON.parse`s to a
message, or parsing throws with the given error message. -/
inductive Raw where
  | parsed : Msg → Raw
  | malformed : String → Raw
deriving DecidableEq, Repr

/-- The `catch` block of the `ws.on('message')` handler: log
`Error handling message:` and send `{error: error.message}` back to the
sender.  If that send itself throws, the rejection escapes the handler
(modelled by the `crashed` flag). -/
def catchSend (sender : Client) (e : String) (w : World σ) : World σ :=
  { w with events := w.events ++ [Ev.log "Error handling message:"],
           crashed := w.crashed || sender.sendThrows,
           outbox := w.outbox
             ++ (if sender.sendThrows then [] else [(sender.cid, OutMsg.errMsg e)]) }

/-- The `ws.on('message')` callback of `startWebSocketServer`:
`JSON.parse` the frame and run `handleMessage`, catching any exception
from either. -/
def wsOnMessage (pl : Platform) (P : Prim σ) (raw : Raw) (sender : Client)
    (w : World σ) : World σ :=
  match raw with
  | Raw.malformed e => catchSend sender e w
  | Raw.parsed m =>
    match handleMessage pl P m sender w with
    | (Except.ok _, w1) => w1
    | (Except.error e, w1) => catchSend sender e w1

/-- The module-level `lastVolume` / `lastMute` snapshot of `main.js`
(initially `null`, hence the options). -/
structure PollState where
  lastVolume : Option JsNum
  lastMute : Option Bool
deriving DecidableEq, Repr

/-- `volume !== lastVolume`: a number is strictly unequal to `null`,
and `NaN !== NaN` holds. -/
def jsNeqOptNum : JsNum → Option JsNum → Bool
  | _, none => true
  | v, some l => !(jsEq v l)

/-- `muted !== lastMute`. -/
def jsNeqOptBool : Bool → Option Bool → Bool
  | _, none => true
  | b, some l => b != l

/-- The `setInterval` callback of `startPolling`: query volume and
mute; if either strictly differs from the snapshot, update the
snapshot and call `broadcastState`; a query throw is caught and logged
as `Error polling:`. -/
def pollTick (pl : Platform) (P : Prim σ) (ps : PollState) (w : World σ) :
    PollState × World σ :=
  match VolumeController.getVolume pl P w.os with
  | (Except.error _, s1, e1) =>
    (ps, { w with os := s1, events := w.events ++ e1 ++ [Ev.log "Error polling:"] })
  | (Except.ok volume, s1, e1) =>
    match VolumeController.getMuted pl P s1 with
    | (Except.error _, s2, e2) =>
      (ps, { w with os := s2, events := w.events ++ e1 ++ e2 ++ [Ev.log "Error polling:"] })
    | (Except.ok muted, s2, e2) =>
      let w1 := { w with os := s2, events := w.events ++ e1 ++ e2 }
      if jsNeqOptNum volume ps.lastVolume || jsNeqOptBool muted ps.lastMute then
        (⟨some volume, some muted⟩, broadcastState pl P w1)
      else (ps, w1)

/-! ## The exec-level backend of `volumeController.js`

The per-platform primitives shell out one command each and parse the
captured stdout with a fixed pattern.  A subprocess outcome is
`Except Unit String` (failure, or the stdout text). -/

/-- The outcome of one `execAsync` call. -/
abbrev ExecRes := Except Unit String

/-- The external subprocess world: running a command transforms an
opaque state and yields an outcome. -/
def ExecOracle (σ : Type) := String → σ → ExecRes × σ

/-- Run one command, recording the exec event. -/
def runExec (x : ExecOracle σ) (cmd : String) (s : σ) : ExecRes × σ × List Ev :=
  match x cmd s with
  | (Except.error u, s1) => (Except.error u, s1, [Ev.exec cmd true])
  | (Except.ok out, s1) => (Except.ok out, s1, [Ev.exec cmd false])

def digitVal (c : Char) : Nat := c.toNat - 48

/-- Split off the maximal leading run of decimal digits. -/
def takeDigits : List Char → List Char × List Char
  | [] => ([], [])
  | c :: cs =>
    if c.isDigit then
      let (d, r) := takeDigits cs
      (c :: d, r)
    else ([], c :: cs)

def natOfDigits : List Char → Nat → Nat
  | [], acc => acc
  | c :: cs, acc => natOfDigits cs (acc * 10 + digitVal c)

/-- First match of the regex pattern: an opening bracket, one or more
digits, a percent sign, a closing bracket — the `stdout.match` of
`getVolumeLinux`, returning the captured digit group. -/
def volMatch : List Char → Option Nat
  | [] => none
  | c :: cs =>
    if c = '[' then
      match takeDigits cs with
      | ([], _) => volMatch cs
      | (ds, rest) =>
        match rest with
        | '%' :: ']' :: _ => some (natOfDigits ds 0)
        | _ => volMatch cs
    else volMatch cs

/-- `String.prototype.includes`: the pattern occurs somewhere. -/
def listHasSub (pat : List Char) : List Char → Bool
  | [] => pat.isPrefixOf ([] : List Char)
  | c :: rest => pat.isPrefixOf (c :: rest) || listHasSub pat rest

/-- An apostrophe character. -/
def quoteChar : Char := Char.ofNat 39

/-- Take characters up to (excluding) the next apostrophe. -/
def takeNonQuote : List Char → List Char × List Char
  | [] => ([], [])
  | c :: cs =>
    if c = quoteChar then ([], c :: cs)
    else
      let (d, r) := takeNonQuote cs
      (c :: d, r)

/-- The literal part of the mixer-control pattern of
`getOutputDeviceLinux`, up to and including the opening apostrophe. -/
def mixerPat : List Char := "Simple mixer control ".toList ++ [quoteChar]

/-- First match of the mixer-control pattern: the literal text, then a
nonempty apostrophe-free capture, then a closing apostrophe. -/
def devMatch : List Char → Option String
  | [] => none
  | c :: cs =>
    if mixerPat.isPrefixOf (c :: cs) then
      match takeNonQuote ((c :: cs).drop mixerPat.length) with
      | ([], _) => devMatch cs
      | (_, []) => devMatch cs
      | (ds, _ :: _) => some (String.mk ds)
    else devMatch cs

/-- Whitespace as `String.prototype.trim` strips it (the characters
that occur in this program's subprocess outputs). -/
def isWsChar (c : Char) : Bool :=
  c = ' ' || c = '\n' || c = '\t' || c = '\r'

def dropLeadingWs : List Char → List Char
  | [] => []
  | c :: cs => if isWsChar c then dropLeadingWs cs else c :: cs

/-- `String.prototype.trim`, modelled on the character list. -/
def trimJs (cs : List Char) : List Char :=
  (dropLeadingWs (dropLeadingWs cs).reverse).reverse

/-- `parseInt` on an already-trimmed string: an optional sign and a
leading digit run (further characters are ignored); no digits means
`NaN`. -/
def parseIntJs : List Char → JsNum
  | '-' :: rest =>
    match takeDigits rest with
    | ([], _) => JsNum.nan
    | (ds, _) => JsNum.int (-(natOfDigits ds 0 : Int))
  | '+' :: rest =>
    match takeDigits rest with
    | ([], _) => JsNum.nan
    | (ds, _) => JsNum.int (natOfDigits ds 0)
  | cs =>
    match takeDigits cs with
    | ([], _) => JsNum.nan
    | (ds, _) => JsNum.int (natOfDigits ds 0)

/-- `getVolumeLinux` applied to the outcome of `amixer get Master`:
parse the first bracketed percentage; no match or a subprocess error
gives 0 (the error case also logs). -/
def getVolumeLinux (r : ExecRes) : JsNum × List Ev :=
  match r with
  | Except.error _ => (JsNum.int 0, [Ev.log "Error getting volume:"])
  | Except.ok out =>
    match volMatch out.toList with
    | some n => (JsNum.int n, [])
    | none => (JsNum.int 0, [])

/-- `getMutedLinux`: whether the output contains a bracketed `off`
marker; a subprocess error gives `false` and logs. -/
def getMutedLinux (r : ExecRes) : Bool × List Ev :=
  match r with
  | Except.error _ => (false, [Ev.log "Error getting mute state:"])
  | Except.ok out => (listHasSub "[off]".toList out.toList, [])

/-- `getOutputDeviceLinux`: the first captured mixer-control name, or
`Master` when nothing matches or the subprocess fails. -/
def getOutputDeviceLinux (r : ExecRes) : String × List Ev :=
  match r with
  | Except.error _ => ("Master", [Ev.log "Error getting output device:"])
  | Except.ok out =>
    match devMatch out.toList with
    | some s => (s, [])
    | none => ("Master", [])

/-- `getVolumeMac`: `parseInt(stdout.trim())` — an unparseable output
yields `NaN`; a subprocess error yields 0 and logs. -/
def getVolumeMac (r : ExecRes) : JsNum × List Ev :=
  match r with
  | Except.error _ => (JsNum.int 0, [Ev.log "Error getting volume:"])
  | Except.ok out => (parseIntJs (trimJs out.toList), [])

/-- `getMutedMac`: the trimmed output equals `true`. -/
def getMutedMac (r : ExecRes) : Bool × List Ev :=
  match r with
  | Except.error _ => (false, [Ev.log "Error getting mute state:"])
  | Except.ok out => (trimJs out.toList == "true".toList, [])

/-- `getOutputDeviceMac`: the trimmed output, or `Built-in Output` when
it is empty or the subprocess fails. -/
def getOutputDeviceMac (r : ExecRes) : String × List Ev :=
  match r with
  | Except.error _ => ("Built-in Output", [Ev.log "Error getting output device:"])
  | Except.ok out =>
    (if trimJs out.toList = [] then "Built-in Output" else String.mk (trimJs out.toList), [])

/-- `getVolumeWindows`: `parseInt(stdout.trim())` — an unparseable
output yields `NaN`; a subprocess error yields 0 and logs. -/
def getVolumeWindows (r : ExecRes) : JsNum × List Ev :=
  match r with
  | Except.error _ => (JsNum.int 0, [Ev.log "Error getting volume:"])
  | Except.ok out => (parseIntJs (trimJs out.toList), [])

/-- `getMutedWindows`: the trimmed output equals `True`. -/
def getMutedWindows (r : ExecRes) : Bool × List Ev :=
  match r with
  | Except.error _ => (false, [Ev.log "Error getting mute state:"])
  | Except.ok out => (trimJs out.toList == "True".toList, [])

/-- `getOutputDeviceWindows`: the trimmed output, or `Default` when it
is empty or the subprocess fails. -/
def getOutputDeviceWindows (r : ExecRes) : String × List Ev :=
  match r with
  | Except.error _ => ("Default", [Ev.log "Error getting output device:"])
  | Except.ok out =>
    (if trimJs out.toList = [] then "Default" else String.mk (trimJs out.toList), [])

/-- The command interpolation of `setVolumeLinux`. -/
def setVolumeLinuxCmd (volume : JsNum) : String :=
  "amixer set Master " ++ jsNumToString volume ++ "%"

/-- The command interpolation of `setMutedLinux`. -/
def setMutedLinuxCmd (muted : Bool) : String :=
  "amixer set Master " ++ (if muted then "mute" else "unmute")

/-- The command interpolation of `setVolumeMac`. -/
def setVolumeMacCmd (volume : JsNum) : String :=
  "osascript -e \"set volume output volume " ++ jsNumToString volume ++ "\""

/-- The Linux primitive family assembled over a subprocess oracle.
Every setter swallows its subprocess error, logging only. -/
def linuxPrim (x : ExecOracle σ) : Prim σ where
  getVol s :=
    let (r, s1, ev) := runExec x "amixer get Master" s
    let (v, evs) := getVolumeLinux r
    (v, s1, ev ++ evs)
  setVol v s :=
    let (r, s1, ev) := runExec x (setVolumeLinuxCmd v) s
    match r with
    | Except.error _ => (s1, ev ++ [Ev.log "Error setting volume:"])
    | Except.ok _ => (s1, ev)
  getMut s :=
    let (r, s1, ev) := runExec x "amixer get Master" s
    let (m, evs) := getMutedLinux r
    (m, s1, ev ++ evs)
  setMut m s :=
    let (r, s1, ev) := runExec x (setMutedLinuxCmd m) s
    match r with
    | Except.error _ => (s1, ev ++ [Ev.log "Error setting mute state:"])
    | Except.ok _ => (s1, ev)
  getDev s :=
    let (r, s1, ev) := runExec x "amixer" s
    let (d, evs) := getOutputDeviceLinux r
    (d, s1, ev ++ evs)

/-- The macOS primitive family assembled over a subprocess oracle. -/
def macPrim (x : ExecOracle σ) : Prim σ where
  getVol s :=
    let (r, s1, ev) := runExec x "osascript -e \"output volume of (get volume settings)\"" s
    let (v, evs) := getVolumeMac r
    (v, s1, ev ++ evs)
  setVol v s :=
    let (r, s1, ev) := runExec x (setVolumeMacCmd v) s
    match r with
    | Except.error _ => (s1, ev ++ [Ev.log "Error setting volume:"])
    | Except.ok _ => (s1, ev)
  getMut s :=
    let (r, s1, ev) := runExec x "osascript -e \"output muted of (get volume settings)\"" s
    let (m, evs) := getMutedMac r
    (m, s1, ev ++ evs)
  setMut m s :=
    let cmd := "osascript -e \"set volume " ++ (if m then "with" else "without") ++ " output muted\""
    let (r, s1, ev) := runExec x cmd s
    match r with
    | Except.error _ => (s1, ev ++ [Ev.log "Error setting mute state:"])
    | Except.ok _ => (s1, ev)
  getDev s :=
    let cmd := "system_profiler SPAudioDataType | grep \"Default Output Device\" -A 1 | tail -n 1 | sed \"s/.*: //\""
    let (r, s1, ev) := runExec x cmd s
    let (d, evs) := getOutputDeviceMac r
    (d, s1, ev ++ evs)

/-- A subprocess oracle with a constant outcome and no state. -/
def constOracle (r : ExecRes) : ExecOracle Unit := fun _ _ => (r, ())

/-- An oracle on which every subprocess call fails. -/
def failExec : ExecOracle Unit := constOracle (Except.error ())

/-- An oracle on which every subprocess call succeeds with output the
fixed pattern cannot parse. -/
def garbageExec : ExecOracle Unit := constOracle (Except.ok "garbage")

/-! ## Shared lemmas -/

lemma jsEq_self (v : JsNum) (h : v ≠ JsNum.nan) : jsEq v v = true := by
  cases v with
  | int n => simp [jsEq]
  | nan => exact absurd rfl h

lemma sendLoop_eq_map (st : OutMsg) (cs : List Client) :
    (sendLoop st cs).1 = (openBeforeFailure cs).map (fun c => (c.cid, st)) := by
  induction cs with
  | nil => simp [sendLoop, openBeforeFailure]
  | cons c rest ih =>
    by_cases h1 : c.readyState == WSOPEN
    · by_cases h2 : c.sendThrows
      · simp [sendLoop, openBeforeFailure, h1, h2]
      · simp [sendLoop, openBeforeFailure, h1, h2, ih]
    · simp [sendLoop, openBeforeFailure, h1, ih]

lemma sendLoop_no_abort (st : OutMsg) (cs : List Client)
    (h : ∀ c ∈ cs, c.readyState == WSOPEN → c.sendThrows = false) :
    (sendLoop st cs).2 = false := by
  induction cs with
  | nil => simp [sendLoop]
  | cons c rest ih =>
    by_cases h1 : c.readyState == WSOPEN
    · have hc : c.sendThrows = false := h c (by simp) h1
      simp [sendLoop, h1, hc, ih fun d hd => h d (by simp [hd])]
    · simp [sendLoop, h1, ih fun d hd => h d (by simp [hd])]

lemma openBeforeFailure_mem (cs : List Client) (c : Client)
    (h : c ∈ openBeforeFailure cs) : c ∈ cs ∧ c.readyState == WSOPEN := by
  induction cs with
  | nil => simp [openBeforeFailure] at h
  | cons d rest ih =>
    by_cases h1 : d.readyState == WSOPEN
    · by_cases h2 : d.sendThrows
      · simp [openBeforeFailure, h1, h2] at h
      · simp only [openBeforeFailure, h1, h2] at h
        simp at h
        rcases h with h | h
        · subst h; simp [h1]
        · rcases ih h with ⟨hm, ho⟩
          exact ⟨by simp [hm], ho⟩
    · simp only [openBeforeFailure, if_neg h1] at h
      rcases ih h with ⟨hm, ho⟩
      exact ⟨by simp [hm], ho⟩

lemma openBeforeFailure_of_nothrow (cs : List Client)
    (h : ∀ c ∈ cs, c.readyState == WSOPEN → c.sendThrows = false) :
    openBeforeFailure cs = cs.filter (fun c => c.readyState == WSOPEN) := by
  induction cs with
  | nil => simp [openBeforeFailure]
  | cons c rest ih =>
    by_cases h1 : c.readyState == WSOPEN
    · have hc : c.sendThrows = false := h c (by simp) h1
      simp [openBeforeFailure, h1, hc, List.filter_cons, ih fun d hd => h d (by simp [hd])]
    · simp [openBeforeFailure, h1, List.filter_cons, ih fun d hd => h d (by simp [hd])]

lemma broadcastState_bumps (pl : Platform) (P : Prim σ) (w : World σ) :
    (broadcastState pl P w).broadcastsStarted = w.broadcastsStarted + 1 := by
  unfold broadcastState
  rcases h1 : VolumeController.getVolume pl P w.os with ⟨r1, s1, e1⟩
  cases r1 with
  | error e => simp [h1]
  | ok v =>
    rcases h2 : VolumeController.getMuted pl P s1 with ⟨r2, s2, e2⟩
    cases r2 with
    | error e => simp [h1, h2]
    | ok m =>
      rcases h3 : VolumeController.getOutputDevice pl P s2 with ⟨r3, s3, e3⟩
      cases r3 with
      | error e => simp [h1, h2, h3]
      | ok d => simp [h1, h2, h3]

lemma pollTick_unchanged (pl : Platform) (hp : pl.supported = true) (ps : PollState)
    (w : World Dev)
    (hc : (jsNeqOptNum w.os.vol ps.lastVolume || jsNeqOptBool w.os.muted ps.lastMute)
      = false) :
    (pollTick pl devPrim ps w).2.broadcastsStarted = w.broadcastsStarted ∧
    (pollTick pl devPrim ps w).1 = ps ∧
    (pollTick pl devPrim ps w).2.os.vol = w.os.vol ∧
    (pollTick pl devPrim ps w).2.os.muted = w.os.muted := by
  simp only [Bool.or_eq_false_iff] at hc
  simp [pollTick, VolumeController.getVolume, VolumeController.getMuted, devPrim, hp,
    hc.1, hc.2]

lemma pollTick_changed (pl : Platform) (hp : pl.supported = true) (ps : PollState)
    (w : World Dev)
    (hc : (jsNeqOptNum w.os.vol ps.lastVolume || jsNeqOptBool w.os.muted ps.lastMute)
      = true) :
    (pollTick pl devPrim ps w).2.broadcastsStarted = w.broadcastsStarted + 1 ∧
    (pollTick pl devPrim ps w).1 = ⟨some w.os.vol, some w.os.muted⟩ ∧
    (pollTick pl devPrim ps w).2.os.vol = w.os.vol ∧
    (pollTick pl devPrim ps w).2.os.muted = w.os.muted := by
  simp [pollTick, VolumeController.getVolume, VolumeController.getMuted,
    VolumeController.getOutputDevice, broadcastState, devPrim, hp, hc]

/-! ## Concrete fixtures for witnesses and counterexamples -/

/-- One open, well-behaved client. -/
def witClient : Client := ⟨0, 1, false⟩

/-- A model device at volume 30, unmuted. -/
def witDev : Dev := ⟨JsNum.int 30, false, "Master", [], [], 0⟩

/-- A world over a model device with one open client. -/
def witWorld : World Dev :=
  { os := witDev, clients := [witClient], outbox := [], events := [],
    broadcastsStarted := 0, crashed := false }

/-- A model device at volume 95, unmuted. -/
def witDev95 : Dev := ⟨JsNum.int 95, false, "Master", [], [], 0⟩

/-- A world over the volume-95 device with one open client. -/
def witWorld95 : World Dev :=
  { os := witDev95, clients := [witClient], outbox := [], events := [],
    broadcastsStarted := 0, crashed := false }

/-- A world over the opaque subprocess world with one open client. -/
def witWorldU : World Unit :=
  { os := (), clients := [witClient], outbox := [], events := [],
    broadcastsStarted := 0, crashed := false }

/-- A world with an open throwing client followed by an open
well-behaved one. -/
def cexWorldThrow : World Dev :=
  { os := witDev, clients := [⟨0, 1, true⟩, ⟨1, 1, false⟩], outbox := [], events := [],
    broadcastsStarted := 0, crashed := false }

/-- A world over the opaque subprocess world with no clients. -/
def cexWorldEmpty : World Unit :=
  { os := (), clients := [], outbox := [], events := [],
    broadcastsStarted := 0, crashed := false }

/-! ## Claim theorems -/

/-- C4: for every integer v, handling a `setVolume` request with value
v applies exactly `clamp(v, 0, 100) = max 0 (min 100 v)` to the audio
backend (the argument handed to the platform setter after the
`Math.max(0, Math.min(100, ...))` in `volumeController.setVolume`),
completes without throwing, and is followed by exactly one broadcast. -/
theorem setVolume_applies_clamp (pl : Platform) (hp : pl.supported = true) (v : Int)
    (w : World Dev) (sender : Client) :
    (handleMessage pl devPrim ⟨"setVolume", JsNum.int v⟩ sender w).1 = Except.ok () ∧
    (handleMessage pl devPrim ⟨"setVolume", JsNum.int v⟩ sender w).2.os.appliedVols
      = w.os.appliedVols ++ [JsNum.int (max 0 (min 100 v))] ∧
    (handleMessage pl devPrim ⟨"setVolume", JsNum.int v⟩ sender w).2.broadcastsStarted
      = w.broadcastsStarted + 1 := by
  simp [handleMessage, VolumeController.setVolume, VolumeController.getVolume,
    VolumeController.getMuted, VolumeController.getOutputDevice, broadcastState,
    devPrim, jsMax, jsMin, hp]

/-- Witness for C4 at platform linux, v = 150 (clamped to 100). -/
theorem setVolume_applies_clamp_witness :
    Platform.supported Platform.linux = true ∧
    ((handleMessage Platform.linux devPrim ⟨"setVolume", JsNum.int 150⟩ witClient
        witWorld).1 = Except.ok () ∧
     (handleMessage Platform.linux devPrim ⟨"setVolume", JsNum.int 150⟩ witClient
        witWorld).2.os.appliedVols
      = witWorld.os.appliedVols ++ [JsNum.int (max 0 (min 100 150))] ∧
     (handleMessage Platform.linux devPrim ⟨"setVolume", JsNum.int 150⟩ witClient
        witWorld).2.broadcastsStarted = witWorld.broadcastsStarted + 1) :=
  ⟨by decide, setVolume_applies_clamp Platform.linux (by decide) 150 witWorld witClient⟩

/-- C5: for every current backend volume c and integer delta,
`increaseVolume` applies `clamp(c + delta, 0, 100)` and
`decreaseVolume` applies `clamp(c − delta, 0, 100)`, each reading c
freshly from the backend and broadcasting afterwards. -/
theorem adjustVolume_clamps (pl : Platform) (hp : pl.supported = true) (c delta : Int)
    (w : World Dev) (sender : Client) (hv : w.os.vol = JsNum.int c) :
    ((handleMessage pl devPrim ⟨"increaseVolume", JsNum.int delta⟩ sender w).2.os.appliedVols
        = w.os.appliedVols ++ [JsNum.int (max 0 (min 100 (c + delta)))] ∧
      (handleMessage pl devPrim ⟨"increaseVolume", JsNum.int delta⟩ sender
          w).2.broadcastsStarted
        = w.broadcastsStarted + 1) ∧
    ((handleMessage pl devPrim ⟨"decreaseVolume", JsNum.int delta⟩ sender w).2.os.appliedVols
        = w.os.appliedVols ++ [JsNum.int (max 0 (min 100 (c - delta)))] ∧
      (handleMessage pl devPrim ⟨"decreaseVolume", JsNum.int delta⟩ sender
          w).2.broadcastsStarted
        = w.broadcastsStarted + 1) := by
  simp [handleMessage, VolumeController.setVolume, VolumeController.getVolume,
    VolumeController.getMuted, VolumeController.getOutputDevice, broadcastState,
    devPrim, jsMax, jsMin, jsAdd, jsSub, hp, hv]
  omega

/-- Witness for C5 at platform linux, current volume 95, delta 10:
increase saturates at 100. -/
theorem adjustVolume_clamps_witness :
    Platform.supported Platform.linux = true ∧ witWorld95.os.vol = JsNum.int 95 ∧
    (((handleMessage Platform.linux devPrim ⟨"increaseVolume", JsNum.int 10⟩ witClient
          witWorld95).2.os.appliedVols
        = witWorld95.os.appliedVols ++ [JsNum.int (max 0 (min 100 (95 + 10)))] ∧
      (handleMessage Platform.linux devPrim ⟨"increaseVolume", JsNum.int 10⟩ witClient
          witWorld95).2.broadcastsStarted = witWorld95.broadcastsStarted + 1) ∧
     ((handleMessage Platform.linux devPrim ⟨"decreaseVolume", JsNum.int 10⟩ witClient
          witWorld95).2.os.appliedVols
        = witWorld95.os.appliedVols ++ [JsNum.int (max 0 (min 100 (95 - 10)))] ∧
      (handleMessage Platform.linux devPrim ⟨"decreaseVolume", JsNum.int 10⟩ witClient
          witWorld95).2.broadcastsStarted = witWorld95.broadcastsStarted + 1)) :=
  ⟨by decide, by decide,
    adjustVolume_clamps Platform.linux (by decide) 95 10 witWorld95 witClient (by decide)⟩

/-- C6: two `toggleMute` requests in sequence, with no external change
in between, leave the backend mute state at its original value (each
toggle reads the current mute state from the backend and applies its
negation). -/
theorem toggleMute_involution (pl : Platform) (hp : pl.supported = true) (w : World Dev)
    (sender : Client) :
    (handleMessage pl devPrim ⟨"toggleMute", JsNum.nan⟩ sender
        (handleMessage pl devPrim ⟨"toggleMute", JsNum.nan⟩ sender w).2).2.os.muted
      = w.os.muted ∧
    (handleMessage pl devPrim ⟨"toggleMute", JsNum.nan⟩ sender
        (handleMessage pl devPrim ⟨"toggleMute", JsNum.nan⟩ sender w).2).2.os.appliedMutes
      = w.os.appliedMutes ++ [!w.os.muted, w.os.muted] := by
  simp [handleMessage, VolumeController.setMuted, VolumeController.getMuted,
    VolumeController.getVolume, VolumeController.getOutputDevice, broadcastState,
    devPrim, hp]

/-- Witness for C6 at platform linux from the unmuted fixture. -/
theorem toggleMute_involution_witness :
    Platform.supported Platform.linux = true ∧
    ((handleMessage Platform.linux devPrim ⟨"toggleMute", JsNum.nan⟩ witClient
        (handleMessage Platform.linux devPrim ⟨"toggleMute", JsNum.nan⟩ witClient
          witWorld).2).2.os.muted
      = witWorld.os.muted ∧
     (handleMessage Platform.linux devPrim ⟨"toggleMute", JsNum.nan⟩ witClient
        (handleMessage Platform.linux devPrim ⟨"toggleMute", JsNum.nan⟩ witClient
          witWorld).2).2.os.appliedMutes
      = witWorld.os.appliedMutes ++ [!witWorld.os.muted, witWorld.os.muted]) :=
  ⟨by decide, toggleMute_involution Platform.linux (by decide) witWorld witClient⟩

/-- C7: a malformed (non-parseable) inbound message yields `{error}`
to the offending client only; the client set, the backend state, the
broadcast count and the crash flag are untouched, and the connection
remains usable: a subsequent valid `getState` from the same client is
answered with the state document. -/
theorem malformed_isolated (pl : Platform) (hp : pl.supported = true) (e : String)
    (w : World Dev) (sender : Client) (hs : sender.sendThrows = false) :
    (wsOnMessage pl devPrim (Raw.malformed e) sender w).outbox
      = w.outbox ++ [(sender.cid, OutMsg.errMsg e)] ∧
    (wsOnMessage pl devPrim (Raw.malformed e) sender w).clients = w.clients ∧
    (wsOnMessage pl devPrim (Raw.malformed e) sender w).crashed = w.crashed ∧
    (wsOnMessage pl devPrim (Raw.malformed e) sender w).broadcastsStarted
      = w.broadcastsStarted ∧
    (wsOnMessage pl devPrim (Raw.malformed e) sender w).os = w.os ∧
    (wsOnMessage pl devPrim (Raw.parsed ⟨"getState", JsNum.nan⟩) sender
        (wsOnMessage pl devPrim (Raw.malformed e) sender w)).outbox
      = w.outbox ++ [(sender.cid, OutMsg.errMsg e),
                     (sender.cid, OutMsg.state w.os.vol w.os.muted w.os.device)] := by
  simp [wsOnMessage, catchSend, handleMessage, sendState, VolumeController.getVolume,
    VolumeController.getMuted, VolumeController.getOutputDevice, devPrim, hp, hs]

/-- Witness for C7 at platform linux with a concrete parse error. -/
theorem malformed_isolated_witness :
    Platform.supported Platform.linux = true ∧ witClient.sendThrows = false ∧
    ((wsOnMessage Platform.linux devPrim (Raw.malformed "Unexpected token") witClient
        witWorld).outbox
      = witWorld.outbox ++ [(witClient.cid, OutMsg.errMsg "Unexpected token")] ∧
     (wsOnMessage Platform.linux devPrim (Raw.malformed "Unexpected token") witClient
        witWorld).clients = witWorld.clients ∧
     (wsOnMessage Platform.linux devPrim (Raw.malformed "Unexpected token") witClient
        witWorld).crashed = witWorld.crashed ∧
     (wsOnMessage Platform.linux devPrim (Raw.malformed "Unexpected token") witClient
        witWorld).broadcastsStarted = witWorld.broadcastsStarted ∧
     (wsOnMessage Platform.linux devPrim (Raw.malformed "Unexpected token") witClient
        witWorld).os = witWorld.os ∧
     (wsOnMessage Platform.linux devPrim (Raw.parsed ⟨"getState", JsNum.nan⟩) witClient
        (wsOnMessage Platform.linux devPrim (Raw.malformed "Unexpected token") witClient
          witWorld)).outbox
      = witWorld.outbox ++ [(witClient.cid, OutMsg.errMsg "Unexpected token"),
          (witClient.cid,
            OutMsg.state witWorld.os.vol witWorld.os.muted witWorld.os.device)]) :=
  ⟨by decide, by decide,
    malformed_isolated Platform.linux (by decide) "Unexpected token" witWorld witClient
      (by decide)⟩

/-- C8: a well-formed message whose action is not recognized yields
`{error: "Unknown action"}` to the sender only, with no backend call,
no broadcast, no log, and no message to any other client. -/
theorem unknown_action_isolated (pl : Platform) (a : String) (v : JsNum) (w : World Dev)
    (sender : Client) (hs : sender.sendThrows = false)
    (ha : a ∉ ["setVolume", "getState", "increaseVolume", "decreaseVolume", "mute",
               "unmute", "toggleMute", "isMuted"]) :
    (handleMessage pl devPrim ⟨a, v⟩ sender w).1 = Except.ok () ∧
    (handleMessage pl devPrim ⟨a, v⟩ sender w).2.outbox
      = w.outbox ++ [(sender.cid, OutMsg.errMsg "Unknown action")] ∧
    (handleMessage pl devPrim ⟨a, v⟩ sender w).2.os = w.os ∧
    (handleMessage pl devPrim ⟨a, v⟩ sender w).2.broadcastsStarted = w.broadcastsStarted ∧
    (handleMessage pl devPrim ⟨a, v⟩ sender w).2.events = w.events ∧
    (handleMessage pl devPrim ⟨a, v⟩ sender w).2.clients = w.clients := by
  simp at ha
  simp [handleMessage, hs, ha.1, ha.2.1, ha.2.2.1, ha.2.2.2.1, ha.2.2.2.2.1,
    ha.2.2.2.2.2.1, ha.2.2.2.2.2.2.1, ha.2.2.2.2.2.2.2]

/-- Witness for C8 at action `bogus`. -/
theorem unknown_action_isolated_witness :
    witClient.sendThrows = false ∧
    "bogus" ∉ ["setVolume", "getState", "increaseVolume", "decreaseVolume", "mute",
               "unmute", "toggleMute", "isMuted"] ∧
    ((handleMessage Platform.linux devPrim ⟨"bogus", JsNum.nan⟩ witClient witWorld).1
        = Except.ok () ∧
     (handleMessage Platform.linux devPrim ⟨"bogus", JsNum.nan⟩ witClient witWorld).2.outbox
        = witWorld.outbox ++ [(witClient.cid, OutMsg.errMsg "Unknown action")] ∧
     (handleMessage Platform.linux devPrim ⟨"bogus", JsNum.nan⟩ witClient witWorld).2.os
        = witWorld.os ∧
     (handleMessage Platform.linux devPrim ⟨"bogus", JsNum.nan⟩ witClient
        witWorld).2.broadcastsStarted = witWorld.broadcastsStarted ∧
     (handleMessage Platform.linux devPrim ⟨"bogus", JsNum.nan⟩ witClient
        witWorld).2.events = witWorld.events ∧
     (handleMessage Platform.linux devPrim ⟨"bogus", JsNum.nan⟩ witClient
        witWorld).2.clients = witWorld.clients) :=
  ⟨by decide, by decide,
    unknown_action_isolated Platform.linux "bogus" JsNum.nan witWorld witClient
      (by decide) (by decide)⟩

/-- C10: a `setVolume` / `increaseVolume` / `decreaseVolume` request
whose value is missing or non-numeric (modelled as `NaN`) is not
validated and draws no error reply: the handler completes normally,
`Math.max(0, Math.min(100, NaN))` passes `NaN` through to the backend
setter unchanged, and on the exec level `NaN` is interpolated verbatim
into the OS command text. -/
theorem nan_value_passthrough (pl : Platform) (hp : pl.supported = true) (w : World Dev)
    (sender : Client) :
    (handleMessage pl devPrim ⟨"setVolume", JsNum.nan⟩ sender w).1 = Except.ok () ∧
    (handleMessage pl devPrim ⟨"setVolume", JsNum.nan⟩ sender w).2.os.appliedVols
      = w.os.appliedVols ++ [JsNum.nan] ∧
    (handleMessage pl devPrim ⟨"increaseVolume", JsNum.nan⟩ sender w).2.os.appliedVols
      = w.os.appliedVols ++ [JsNum.nan] ∧
    (handleMessage pl devPrim ⟨"decreaseVolume", JsNum.nan⟩ sender w).2.os.appliedVols
      = w.os.appliedVols ++ [JsNum.nan] ∧
    jsMax (JsNum.int 0) (jsMin (JsNum.int 100) JsNum.nan) = JsNum.nan ∧
    setVolumeLinuxCmd JsNum.nan = "amixer set Master NaN%" ∧
    setVolumeMacCmd JsNum.nan = "osascript -e \"set volume output volume NaN\"" ∧
    Ev.exec "amixer set Master NaN%" false
      ∈ (wsOnMessage Platform.linux (linuxPrim garbageExec)
          (Raw.parsed ⟨"setVolume", JsNum.nan⟩) witClient witWorldU).events := by
  refine ⟨?_, ?_, ?_, ?_, by decide, by decide, by decide, by decide⟩ <;>
    simp [handleMessage, VolumeController.setVolume, VolumeController.getVolume,
      VolumeController.getMuted, VolumeController.getOutputDevice, broadcastState,
      devPrim, jsMax, jsMin, jsAdd, jsSub, hp]

/-- Witness for C10 at platform linux over the model device. -/
theorem nan_value_passthrough_witness :
    Platform.supported Platform.linux = true ∧
    ((handleMessage Platform.linux devPrim ⟨"setVolume", JsNum.nan⟩ witClient
        witWorld).1 = Except.ok () ∧
     (handleMessage Platform.linux devPrim ⟨"setVolume", JsNum.nan⟩ witClient
        witWorld).2.os.appliedVols = witWorld.os.appliedVols ++ [JsNum.nan] ∧
     (handleMessage Platform.linux devPrim ⟨"increaseVolume", JsNum.nan⟩ witClient
        witWorld).2.os.appliedVols = witWorld.os.appliedVols ++ [JsNum.nan] ∧
     (handleMessage Platform.linux devPrim ⟨"decreaseVolume", JsNum.nan⟩ witClient
        witWorld).2.os.appliedVols = witWorld.os.appliedVols ++ [JsNum.nan] ∧
     jsMax (JsNum.int 0) (jsMin (JsNum.int 100) JsNum.nan) = JsNum.nan ∧
     setVolumeLinuxCmd JsNum.nan = "amixer set Master NaN%" ∧
     setVolumeMacCmd JsNum.nan = "osascript -e \"set volume output volume NaN\"" ∧
     Ev.exec "amixer set Master NaN%" false
       ∈ (wsOnMessage Platform.linux (linuxPrim garbageExec)
           (Raw.parsed ⟨"setVolume", JsNum.nan⟩) witClient witWorldU).events) :=
  ⟨by decide, nan_value_passthrough Platform.linux (by decide) witWorld witClient⟩

/-- C1 counterexample: on linux with every subprocess failing, a
`setVolume 50` request runs the set command (which fails), yet the
requesting client receives no error reply — the only message delivered
is the state broadcast — and the broadcast is not skipped.  This
refutes the claim that a failed backend call is reported to the client
as an error reply with the broadcast skipped. -/
theorem backend_failure_cex :
    Ev.exec "amixer set Master 50%" true
        ∈ (wsOnMessage Platform.linux (linuxPrim failExec)
            (Raw.parsed ⟨"setVolume", JsNum.int 50⟩) witClient witWorldU).events ∧
    (wsOnMessage Platform.linux (linuxPrim failExec)
        (Raw.parsed ⟨"setVolume", JsNum.int 50⟩) witClient witWorldU).outbox
      = [(0, OutMsg.state (JsNum.int 0) false "Master")] ∧
    (wsOnMessage Platform.linux (linuxPrim failExec)
        (Raw.parsed ⟨"setVolume", JsNum.int 50⟩) witClient witWorldU).broadcastsStarted
      = 1 := by
  decide

/-- C1 amended: for every mutating action (`setVolume`,
`increaseVolume`, `decreaseVolume`, `mute`, `unmute`, `toggleMute`), a
backend subprocess failure is caught and logged inside the
per-platform wrapper but is not reported to the requesting client, and
the state broadcast still occurs: on linux with a failing subprocess
world, handling any of the six actions logs the corresponding setter
failure, bumps the broadcast count, delivers only state documents, and
does not crash; for `setVolume` the full event trace (clamped set
command, failure logs of the set and of the three broadcast queries)
is exhibited.  Only the unsupported-platform error thrown by the
dispatch layer reaches the message handler's catch; for every one of
the six actions it is reported to the requester as `{error}`, the
broadcast is skipped, and the backend state is untouched. -/
theorem backend_failure_amended (v : Int) (sender : Client) (w : World Unit)
    (hcl : ∀ c ∈ w.clients, c.readyState == WSOPEN → c.sendThrows = false)
    (ps : String) (v2 : JsNum) (sender2 : Client) (w2 : World Dev)
    (hs2 : sender2.sendThrows = false) :
    (∀ p ∈ ([("setVolume", "Error setting volume:"),
             ("increaseVolume", "Error setting volume:"),
             ("decreaseVolume", "Error setting volume:"),
             ("mute", "Error setting mute state:"),
             ("unmute", "Error setting mute state:"),
             ("toggleMute", "Error setting mute state:")] : List (String × String)),
      (wsOnMessage Platform.linux (linuxPrim failExec)
          (Raw.parsed ⟨p.1, JsNum.int v⟩) sender w).broadcastsStarted
        = w.broadcastsStarted + 1 ∧
      (wsOnMessage Platform.linux (linuxPrim failExec)
          (Raw.parsed ⟨p.1, JsNum.int v⟩) sender w).outbox
        = w.outbox ++ (openBeforeFailure w.clients).map
            (fun c => (c.cid, OutMsg.state (JsNum.int 0) false "Master")) ∧
      (wsOnMessage Platform.linux (linuxPrim failExec)
          (Raw.parsed ⟨p.1, JsNum.int v⟩) sender w).crashed = w.crashed ∧
      Ev.log p.2 ∈ (wsOnMessage Platform.linux (linuxPrim failExec)
          (Raw.parsed ⟨p.1, JsNum.int v⟩) sender w).events) ∧
    ((wsOnMessage Platform.linux (linuxPrim failExec)
        (Raw.parsed ⟨"setVolume", JsNum.int v⟩) sender w).events
      = w.events ++
        [Ev.exec (setVolumeLinuxCmd (JsNum.int (max 0 (min 100 v)))) true,
         Ev.log "Error setting volume:",
         Ev.exec "amixer get Master" true, Ev.log "Error getting volume:",
         Ev.exec "amixer get Master" true, Ev.log "Error getting mute state:",
         Ev.exec "amixer" true, Ev.log "Error getting output device:"]) ∧
    (∀ a ∈ (["setVolume", "increaseVolume", "decreaseVolume", "mute", "unmute",
             "toggleMute"] : List String),
      (wsOnMessage (Platform.other ps) devPrim (Raw.parsed ⟨a, v2⟩) sender2 w2).outbox
        = w2.outbox ++ [(sender2.cid, OutMsg.errMsg ("Unsupported platform: " ++ ps))] ∧
      (wsOnMessage (Platform.other ps) devPrim
          (Raw.parsed ⟨a, v2⟩) sender2 w2).broadcastsStarted = w2.broadcastsStarted ∧
      (wsOnMessage (Platform.other ps) devPrim (Raw.parsed ⟨a, v2⟩) sender2 w2).os
        = w2.os ∧
      (wsOnMessage (Platform.other ps) devPrim (Raw.parsed ⟨a, v2⟩) sender2 w2).events
        = w2.events ++ [Ev.log "Error handling message:"]) := by
  refine ⟨?_, ?_, ?_⟩
  · intro p hp
    fin_cases hp <;>
      simp [wsOnMessage, handleMessage, VolumeController.setVolume,
        VolumeController.setMuted, VolumeController.getVolume,
        VolumeController.getMuted, VolumeController.getOutputDevice, broadcastState,
        linuxPrim, runExec, failExec, constOracle, getVolumeLinux, getMutedLinux,
        getOutputDeviceLinux, setVolumeLinuxCmd, setMutedLinuxCmd, jsMax, jsMin,
        jsAdd, jsSub, Platform.supported, sendLoop_eq_map, sendLoop_no_abort _ _ hcl]
  · simp [wsOnMessage, handleMessage, VolumeController.setVolume,
      VolumeController.getVolume, VolumeController.getMuted,
      VolumeController.getOutputDevice, broadcastState, linuxPrim, runExec, failExec,
      constOracle, getVolumeLinux, getMutedLinux, getOutputDeviceLinux,
      setVolumeLinuxCmd, jsMax, jsMin, Platform.supported, sendLoop_eq_map,
      sendLoop_no_abort _ _ hcl]
  · intro a ha
    fin_cases ha <;>
      simp [wsOnMessage, handleMessage, catchSend, VolumeController.setVolume,
        VolumeController.setMuted, VolumeController.getVolume,
        VolumeController.getMuted, Platform.supported, Platform.name, hs2]

/-- Witness for the amended C1 at v = 50, exercising the `mute` action
on the failing linux world and `toggleMute` on platform `plan9`. -/
theorem backend_failure_amended_witness :
    (∀ c ∈ witWorldU.clients, c.readyState == WSOPEN → c.sendThrows = false) ∧
    witClient.sendThrows = false ∧
    (("mute", "Error setting mute state:")
      ∈ ([("setVolume", "Error setting volume:"),
          ("increaseVolume", "Error setting volume:"),
          ("decreaseVolume", "Error setting volume:"),
          ("mute", "Error setting mute state:"),
          ("unmute", "Error setting mute state:"),
          ("toggleMute", "Error setting mute state:")] : List (String × String))) ∧
    "toggleMute" ∈ (["setVolume", "increaseVolume", "decreaseVolume", "mute",
                     "unmute", "toggleMute"] : List String) ∧
    ((wsOnMessage Platform.linux (linuxPrim failExec)
        (Raw.parsed ⟨"mute", JsNum.int 50⟩) witClient witWorldU).broadcastsStarted
      = witWorldU.broadcastsStarted + 1 ∧
     (wsOnMessage Platform.linux (linuxPrim failExec)
        (Raw.parsed ⟨"mute", JsNum.int 50⟩) witClient witWorldU).outbox
      = witWorldU.outbox ++ (openBeforeFailure witWorldU.clients).map
          (fun c => (c.cid, OutMsg.state (JsNum.int 0) false "Master")) ∧
     (wsOnMessage Platform.linux (linuxPrim failExec)
        (Raw.parsed ⟨"mute", JsNum.int 50⟩) witClient witWorldU).crashed
      = witWorldU.crashed ∧
     Ev.log "Error setting mute state:" ∈ (wsOnMessage Platform.linux
        (linuxPrim failExec) (Raw.parsed ⟨"mute", JsNum.int 50⟩) witClient
        witWorldU).events) ∧
    ((wsOnMessage (Platform.other "plan9") devPrim
        (Raw.parsed ⟨"toggleMute", JsNum.int 50⟩) witClient witWorld).outbox
      = witWorld.outbox
        ++ [(witClient.cid, OutMsg.errMsg ("Unsupported platform: " ++ "plan9"))] ∧
     (wsOnMessage (Platform.other "plan9") devPrim
        (Raw.parsed ⟨"toggleMute", JsNum.int 50⟩) witClient
        witWorld).broadcastsStarted = witWorld.broadcastsStarted ∧
     (wsOnMessage (Platform.other "plan9") devPrim
        (Raw.parsed ⟨"toggleMute", JsNum.int 50⟩) witClient witWorld).os
      = witWorld.os ∧
     (wsOnMessage (Platform.other "plan9") devPrim
        (Raw.parsed ⟨"toggleMute", JsNum.int 50⟩) witClient witWorld).events
      = witWorld.events ++ [Ev.log "Error handling message:"]) :=
  ⟨by decide, by decide, by decide, by decide,
    (backend_failure_amended 50 witClient witWorldU (by decide) "plan9"
        (JsNum.int 50) witClient witWorld (by decide)).1
      ("mute", "Error setting mute state:") (by decide),
    (backend_failure_amended 50 witClient witWorldU (by decide) "plan9"
        (JsNum.int 50) witClient witWorld (by decide)).2.2
      "toggleMute" (by decide)⟩

/-- C2 counterexample: with two open clients where the first client's
`send` throws, the broadcast delivers nothing at all — in particular
the second, healthy open client does not receive the state message —
because the whole `forEach` is aborted by the exception and caught by
the single surrounding handler.  This refutes the claim that a send
failure to one client does not prevent delivery to the rest. -/
theorem broadcast_isolation_cex :
    Client.mk 1 1 false ∈ cexWorldThrow.clients ∧ (1 : Nat) = WSOPEN ∧
    (broadcastState Platform.linux devPrim cexWorldThrow).outbox = [] ∧
    (broadcastState Platform.linux devPrim cexWorldThrow).broadcastsStarted = 1 ∧
    Ev.log "Error broadcasting state:"
      ∈ (broadcastState Platform.linux devPrim cexWorldThrow).events := by
  decide

/-- C2 amended: a broadcast delivers the state message to exactly the
open clients preceding the first open client whose send throws, in
order; mid-close clients are skipped and (given distinct connection
ids) receive nothing; when no open client's send throws, every open
client receives the message, each id exactly once (the delivered id
list is duplicate-free and covers all open clients).  A send failure
thus aborts delivery to the remaining clients rather than being
isolated per client. -/
theorem broadcast_delivery_amended (pl : Platform) (hp : pl.supported = true)
    (w : World Dev) (hnd : (w.clients.map Client.cid).Nodup) :
    (broadcastState pl devPrim w).outbox
      = w.outbox ++ (openBeforeFailure w.clients).map
          (fun c => (c.cid, OutMsg.state w.os.vol w.os.muted w.os.device)) ∧
    (∀ c ∈ w.clients, ¬(c.readyState == WSOPEN) → ∀ m : OutMsg,
      (c.cid, m) ∉ (openBeforeFailure w.clients).map
          (fun c => (c.cid, OutMsg.state w.os.vol w.os.muted w.os.device))) ∧
    ((∀ c ∈ w.clients, c.readyState == WSOPEN → c.sendThrows = false) →
      openBeforeFailure w.clients = w.clients.filter (fun c => c.readyState == WSOPEN) ∧
      ((openBeforeFailure w.clients).map Client.cid).Nodup ∧
      ∀ c ∈ w.clients, c.readyState == WSOPEN →
        c.cid ∈ (openBeforeFailure w.clients).map Client.cid) := by
  refine ⟨?_, ?_, ?_⟩
  · simp [broadcastState, VolumeController.getVolume, VolumeController.getMuted,
      VolumeController.getOutputDevice, devPrim, hp, sendLoop_eq_map]
  · intro c hc hno m hmem
    rcases List.mem_map.1 hmem with ⟨d, hd, hde⟩
    rcases openBeforeFailure_mem _ _ hd with ⟨hdm, hdo⟩
    have hcid : d.cid = c.cid := congrArg Prod.fst hde
    have : d = c := List.inj_on_of_nodup_map hnd hdm hc hcid
    subst this
    exact hno hdo
  · intro hnt
    have heq := openBeforeFailure_of_nothrow _ hnt
    have hsub : ((w.clients.filter (fun c => c.readyState == WSOPEN)).map
        Client.cid).Sublist (w.clients.map Client.cid) :=
      (List.filter_sublist _).map _
    have hnd2 : ((w.clients.filter (fun c => c.readyState == WSOPEN)).map
        Client.cid).Nodup := hnd.sublist hsub
    refine ⟨heq, by rw [heq]; exact hnd2, ?_⟩
    intro c hc hopen
    rw [heq]
    exact List.mem_map.2 ⟨c, List.mem_filter.2 ⟨hc, hopen⟩, rfl⟩

/-- Witness for the amended C2: one open and one mid-close client. -/
theorem broadcast_delivery_amended_witness :
    Platform.supported Platform.linux = true ∧
    (([⟨0, 1, false⟩, ⟨1, 2, false⟩] : List Client).map Client.cid).Nodup ∧
    (broadcastState Platform.linux devPrim
        { os := witDev, clients := [⟨0, 1, false⟩, ⟨1, 2, false⟩], outbox := [],
          events := [], broadcastsStarted := 0, crashed := false }).outbox
      = ([] : List (Nat × OutMsg))
        ++ (openBeforeFailure [⟨0, 1, false⟩, ⟨1, 2, false⟩]).map
            (fun c => (c.cid, OutMsg.state witDev.vol witDev.muted witDev.device)) :=
  ⟨by decide, by decide,
    (broadcast_delivery_amended Platform.linux (by decide)
        { os := witDev, clients := [⟨0, 1, false⟩, ⟨1, 2, false⟩], outbox := [],
          events := [], broadcastsStarted := 0, crashed := false } (by decide)).1⟩

/-- C3 counterexample: on darwin with an unparseable volume output the
queried volume is `NaN`; with the snapshot already holding exactly
these values (`NaN` volume, `false` mute) the tick still broadcasts —
because `NaN !== NaN` — and leaves the snapshot at the same values, so
the next tick broadcasts again.  This refutes "zero broadcasts on a
tick where both queried values equal the snapshot" and "no two
consecutive ticks broadcast the same unchanged state". -/
theorem pollTick_nan_cex :
    (VolumeController.getVolume Platform.darwin (macPrim garbageExec) ()).1
        = Except.ok JsNum.nan ∧
    (VolumeController.getMuted Platform.darwin (macPrim garbageExec) ()).1
        = Except.ok false ∧
    (pollTick Platform.darwin (macPrim garbageExec)
        ⟨some JsNum.nan, some false⟩ cexWorldEmpty).2.broadcastsStarted = 1 ∧
    (pollTick Platform.darwin (macPrim garbageExec)
        ⟨some JsNum.nan, some false⟩ cexWorldEmpty).1
      = ⟨some JsNum.nan, some false⟩ :=
  ⟨rfl, rfl, rfl, rfl⟩

/-- C3 amended: every poll tick issues at most one broadcast; a tick
whose queried volume and mute equal the snapshot issues zero
broadcasts provided the volume is not `NaN` (JavaScript strict
inequality makes a `NaN` volume count as changed on every tick); on a
change the snapshot is updated to the newly observed values together
with the fan-out; and two consecutive ticks over an unchanged backend
never both broadcast, again provided the volume is not `NaN`. -/
theorem pollTick_amended :
    (∀ {σ : Type} (pl : Platform) (P : Prim σ) (ps : PollState) (w : World σ),
      (pollTick pl P ps w).2.broadcastsStarted ≤ w.broadcastsStarted + 1) ∧
    (∀ (pl : Platform), pl.supported = true → ∀ (ps : PollState) (w : World Dev),
      ps.lastVolume = some w.os.vol → ps.lastMute = some w.os.muted →
      w.os.vol ≠ JsNum.nan →
      (pollTick pl devPrim ps w).2.broadcastsStarted = w.broadcastsStarted ∧
      (pollTick pl devPrim ps w).1 = ps) ∧
    (∀ (pl : Platform), pl.supported = true → ∀ (ps : PollState) (w : World Dev),
      (jsNeqOptNum w.os.vol ps.lastVolume || jsNeqOptBool w.os.muted ps.lastMute)
          = true →
      (pollTick pl devPrim ps w).1 = ⟨some w.os.vol, some w.os.muted⟩ ∧
      (pollTick pl devPrim ps w).2.broadcastsStarted = w.broadcastsStarted + 1) ∧
    (∀ (pl : Platform), pl.supported = true → ∀ (ps : PollState) (w : World Dev),
      w.os.vol ≠ JsNum.nan →
      (pollTick pl devPrim (pollTick pl devPrim ps w).1
          (pollTick pl devPrim ps w).2).2.broadcastsStarted
        = (pollTick pl devPrim ps w).2.broadcastsStarted) := by
  refine ⟨?_, ?_, ?_, ?_⟩
  · intro σ pl P ps w
    unfold pollTick
    rcases h1 : VolumeController.getVolume pl P w.os with ⟨r1, s1, e1⟩
    cases r1 with
    | error e => simp [h1]
    | ok v =>
      rcases h2 : VolumeController.getMuted pl P s1 with ⟨r2, s2, e2⟩
      cases r2 with
      | error e => simp [h1, h2]
      | ok m =>
        by_cases hc : (jsNeqOptNum v ps.lastVolume || jsNeqOptBool m ps.lastMute) = true
        · simp [h1, h2, hc, broadcastState_bumps]
        · simp only [Bool.or_eq_true] at hc
          push_neg at hc
          simp [h1, h2, hc.1, hc.2]
  · intro pl hp ps w hv hm hn
    have hc : (jsNeqOptNum w.os.vol ps.lastVolume
        || jsNeqOptBool w.os.muted ps.lastMute) = false := by
      simp [jsNeqOptNum, jsNeqOptBool, hv, hm, jsEq_self _ hn]
    rcases pollTick_unchanged pl hp ps w hc with ⟨hb, hs, _, _⟩
    exact ⟨hb, hs⟩
  · intro pl hp ps w hc
    rcases pollTick_changed pl hp ps w hc with ⟨hb, hs, _, _⟩
    exact ⟨hs, hb⟩
  · intro pl hp ps w hn
    by_cases hc : (jsNeqOptNum w.os.vol ps.lastVolume
        || jsNeqOptBool w.os.muted ps.lastMute) = true
    · rcases pollTick_changed pl hp ps w hc with ⟨_, hps, hvv, hmm⟩
      have hc2 : (jsNeqOptNum (pollTick pl devPrim ps w).2.os.vol
            ((pollTick pl devPrim ps w).1).lastVolume
          || jsNeqOptBool (pollTick pl devPrim ps w).2.os.muted
            ((pollTick pl devPrim ps w).1).lastMute) = false := by
        rw [hps, hvv, hmm]
        simp [jsNeqOptNum, jsNeqOptBool, jsEq_self _ hn]
      exact (pollTick_unchanged pl hp _ _ hc2).1
    · have hc0 : (jsNeqOptNum w.os.vol ps.lastVolume
          || jsNeqOptBool w.os.muted ps.lastMute) = false := by
        simpa using hc
      rcases pollTick_unchanged pl hp ps w hc0 with ⟨_, hps, hvv, hmm⟩
      have hc2 : (jsNeqOptNum (pollTick pl devPrim ps w).2.os.vol
            ((pollTick pl devPrim ps w).1).lastVolume
          || jsNeqOptBool (pollTick pl devPrim ps w).2.os.muted
            ((pollTick pl devPrim ps w).1).lastMute) = false := by
        rw [hps, hvv, hmm]
        exact hc0
      exact (pollTick_unchanged pl hp _ _ hc2).1

/-- Witness for the amended C3: an unchanged non-`NaN` tick broadcasts
zero times. -/
theorem pollTick_amended_witness :
    Platform.supported Platform.linux = true ∧
    (⟨some (JsNum.int 30), some false⟩ : PollState).lastVolume = some witWorld.os.vol ∧
    (⟨some (JsNum.int 30), some false⟩ : PollState).lastMute = some witWorld.os.muted ∧
    witWorld.os.vol ≠ JsNum.nan ∧
    ((pollTick Platform.linux devPrim ⟨some (JsNum.int 30), some false⟩
        witWorld).2.broadcastsStarted = witWorld.broadcastsStarted ∧
     (pollTick Platform.linux devPrim ⟨some (JsNum.int 30), some false⟩ witWorld).1
        = ⟨some (JsNum.int 30), some false⟩) :=
  ⟨by decide, by decide, by decide, by decide,
    pollTick_amended.2.1 Platform.linux (by decide)
      ⟨some (JsNum.int 30), some false⟩ witWorld (by decide) (by decide) (by decide)⟩

/-- C9 counterexample: on darwin (and win32) a successful subprocess
with unparseable output makes `getVolume` return `parseInt`'s `NaN`,
not the fixed default 0 — refuting the claim that unparseable output
yields the default volume 0 on every supported platform. -/
theorem query_defaults_cex :
    (getVolumeMac (Except.ok "garbage")).1 = JsNum.nan ∧
    (getVolumeWindows (Except.ok "garbage")).1 = JsNum.nan ∧
    JsNum.nan ≠ JsNum.int 0 := by
  decide

/-- C9 amended: the query wrappers never propagate a failure (they are
total); on a subprocess failure every getter returns its fixed default
(volume 0, muted false, `Master` / `Built-in Output` / `Default`); on
unparseable output the getters also fall back on every platform —
linux `getVolume` returns 0 when no bracketed percentage matches,
`getMuted` returns false whenever the expected marker/token (linux
bracketed `off`, darwin `true`, win32 `True`) is absent, and
`getOutputDevice` returns the platform default when the linux pattern
has no match resp. when the darwin/win32 output is empty after
trimming — but the darwin and win32 volume getters return `NaN`
rather than 0 when `parseInt` cannot parse the output. -/
theorem query_defaults_amended :
    (∀ out : String, volMatch out.toList = none →
      (getVolumeLinux (Except.ok out)).1 = JsNum.int 0) ∧
    (∀ out : String, devMatch out.toList = none →
      (getOutputDeviceLinux (Except.ok out)).1 = "Master") ∧
    (∀ out : String, listHasSub "[off]".toList out.toList = false →
      (getMutedLinux (Except.ok out)).1 = false) ∧
    (∀ out : String, parseIntJs (trimJs out.toList) = JsNum.nan →
      (getVolumeMac (Except.ok out)).1 = JsNum.nan ∧
      (getVolumeWindows (Except.ok out)).1 = JsNum.nan) ∧
    (∀ out : String, trimJs out.toList ≠ "true".toList →
      (getMutedMac (Except.ok out)).1 = false) ∧
    (∀ out : String, trimJs out.toList ≠ "True".toList →
      (getMutedWindows (Except.ok out)).1 = false) ∧
    (∀ out : String, trimJs out.toList = [] →
      (getOutputDeviceMac (Except.ok out)).1 = "Built-in Output") ∧
    (∀ out : String, trimJs out.toList = [] →
      (getOutputDeviceWindows (Except.ok out)).1 = "Default") ∧
    (getVolumeLinux (Except.error ())).1 = JsNum.int 0 ∧
    (getVolumeMac (Except.error ())).1 = JsNum.int 0 ∧
    (getVolumeWindows (Except.error ())).1 = JsNum.int 0 ∧
    (getMutedLinux (Except.error ())).1 = false ∧
    (getMutedMac (Except.error ())).1 = false ∧
    (getMutedWindows (Except.error ())).1 = false ∧
    (getOutputDeviceLinux (Except.error ())).1 = "Master" ∧
    (getOutputDeviceMac (Except.error ())).1 = "Built-in Output" ∧
    (getOutputDeviceWindows (Except.error ())).1 = "Default" := by
  refine ⟨?_, ?_, ?_, ?_, ?_, ?_, ?_, ?_, rfl, rfl, rfl, rfl, rfl, rfl, rfl, rfl, rfl⟩
  · intro out h
    simp only [String.toList] at h
    simp [getVolumeLinux, h]
  · intro out h
    simp only [String.toList] at h
    simp [getOutputDeviceLinux, h]
  · intro out h
    simp only [String.toList] at h
    simp [getMutedLinux, h]
  · intro out h
    simp only [String.toList] at h
    simp [getVolumeMac, getVolumeWindows, h]
  · intro out h
    simp only [String.toList] at h
    simp [getMutedMac, h]
  · intro out h
    simp only [String.toList] at h
    simp [getMutedWindows, h]
  · intro out h
    simp only [String.toList] at h
    simp [getOutputDeviceMac, h]
  · intro out h
    simp only [String.toList] at h
    simp [getOutputDeviceWindows, h]

/-- Witness for the amended C9 at concrete unparseable outputs on all
three platforms. -/
theorem query_defaults_amended_witness :
    volMatch "no percentage here".toList = none ∧
    devMatch "no control here".toList = none ∧
    listHasSub "[off]".toList "no marker".toList = false ∧
    parseIntJs (trimJs "garbage".toList) = JsNum.nan ∧
    trimJs "garbage".toList ≠ "true".toList ∧
    trimJs "garbage".toList ≠ "True".toList ∧
    trimJs "  ".toList = [] ∧
    ((getVolumeLinux (Except.ok "no percentage here")).1 = JsNum.int 0 ∧
     (getOutputDeviceLinux (Except.ok "no control here")).1 = "Master" ∧
     (getMutedLinux (Except.ok "no marker")).1 = false ∧
     (getVolumeMac (Except.ok "garbage")).1 = JsNum.nan ∧
     (getMutedMac (Except.ok "garbage")).1 = false ∧
     (getMutedWindows (Except.ok "garbage")).1 = false ∧
     (getOutputDeviceMac (Except.ok "  ")).1 = "Built-in Output" ∧
     (getOutputDeviceWindows (Except.ok "  ")).1 = "Default") :=
  ⟨by decide, by decide, by decide, by decide, by decide, by decide, by decide,
    query_defaults_amended.1 "no percentage here" (by decide),
    query_defaults_amended.2.1 "no control here" (by decide),
    query_defaults_amended.2.2.1 "no marker" (by decide),
    (query_defaults_amended.2.2.2.1 "garbage" (by decide)).1,
    query_defaults_amended.2.2.2.2.1 "garbage" (by decide),
    query_defaults_amended.2.2.2.2.2.1 "garbage" (by decide),
    query_defaults_amended.2.2.2.2.2.2.1 "  " (by decide),
    query_defaults_amended.2.2.2.2.2.2.2.1 "  " (by decide)⟩

end RemoteVolume
